import Mathlib

/-!
LSL syntax-id fetcher (`indra/newview/llsyntaxid.cpp`)

A shallow embedding of `LLSyntaxIdLSL` and of `fetchKeywordsFileResponder`.

The class is a singleton whose methods read and write its members, the agent's
current region, the local disk, the HTTP client and a change signal.  The
embedding passes all of that explicitly as a `World`.  The libraries the file is
compiled against (the structured-document type `LLSD` with its XML
serialisation, `LLUUID::asString`, `gDirUtilp->getExpandedFilename`) are not part
of the sources; they enter as the fields of a `Host`, so every theorem holds for
any implementation of them.  Logging statements have no effect on the state and
are left out.
-/

/-! ## Values supplied by the surrounding viewer -/

/-- Modelled from the spec: the 128-bit identifier `LLUUID` (lluuid.h is not among
the sources), as the number its sixteen bytes spell.  The null id is zero. -/
structure LLUUID where
  bits : Nat
deriving DecidableEq, Repr

/-- The null id, what the default constructor `LLUUID()` and `setNull` give. -/
def LLUUID.null : LLUUID := ⟨0⟩

/-- Method `LLUUID::isNull`. -/
def LLUUID.isNull (u : LLUUID) : Bool := u.bits == 0

/-- Method `LLUUID::notNull`. -/
def LLUUID.notNull (u : LLUUID) : Bool := !u.isNull

/-- Modelled from the spec: the two members of the enumeration `ELLPath` (lldir.h
is not among the sources) that the fetcher uses. -/
inductive ELLPath where
  | LL_PATH_APP_SETTINGS
  | LL_PATH_CACHE
deriving DecidableEq, Repr

/-- Modelled from the spec: the library calls of llsyntaxid.cpp whose code is not
among the sources, over a document type `D` standing for `LLSD`.
`fromXML` gives the document the parser leaves in its output argument together
with its return code; `PARSE_FAILURE` is a negative code. -/
structure Host (D : Type) where
  /-- The default-constructed `LLSD()`, the undefined document. -/
  undef : D
  /-- Method `LLSD::isMap`. -/
  isMap : D → Bool
  /-- Method `LLSD::has`. -/
  has : D → String → Bool
  /-- Method `LLSD::operator[]` with a string key. -/
  get : D → String → D
  /-- Method `LLSD::asInteger`; the result type is the signed 32-bit `S32`. -/
  asInteger : D → Int
  /-- Method `LLSD::asUUID`. -/
  asUUID : D → LLUUID
  /-- Function `LLSDSerialize::toXML`, as the text it writes to the stream. -/
  toXML : D → String
  /-- Function `LLSDSerialize::fromXML` on the text of a stream. -/
  fromXML : String → D × Int
  /-- Method `LLUUID::asString`. -/
  uuidAsString : LLUUID → String
  /-- Method `LLDir::getExpandedFilename` of `gDirUtilp`. -/
  getExpandedFilename : ELLPath → String → String

/-- Modelled from the spec: the value `LLSDParser::PARSE_FAILURE` (llsdserialize.h
is not among the sources). -/
def PARSE_FAILURE : Int := -1

/-- Whether an integer is a value of the signed 32-bit type `S32`. -/
def inS32 (i : Int) : Prop := -2147483648 ≤ i ∧ i < 2147483648

instance (i : Int) : Decidable (inS32 i) := by
  unfold inS32
  infer_instance

/-! ## Constants of llsyntaxid.cpp -/

def SYNTAX_ID_CAPABILITY_NAME : String := "LSLSyntax"
def SYNTAX_ID_SIMULATOR_FEATURE : String := "LSLSyntaxId"
def FILENAME_DEFAULT : String := "keywords_lsl_default.xml"
def LLSD_SYNTAX_LSL_VERSION_EXPECTED : Nat := 2
def LLSD_SYNTAX_LSL_VERSION_KEY : String := "llsd-lsl-syntax-version"

/-! ## State -/

/-- Modelled from the spec: what the fetcher reads of an `LLViewerRegion`
(llviewerregion.h is not among the sources), and the number of callbacks
registered through `setCapabilitiesReceivedCallback`. -/
structure LLViewerRegion (D : Type) where
  regionID : LLUUID
  capabilitiesReceived : Bool
  simulatorFeatures : D
  getCapability : String → String
  capsReceivedCallbacks : Nat

/-- The data members of `LLSyntaxIdLSL` that the methods of llsyntaxid.cpp use
(`mFilePath` is set by the constructor and never read). -/
structure LLSyntaxIdLSL (D : Type) where
  mKeywordsXml : D
  mCapabilityURL : String
  mSyntaxId : LLUUID
  mFullFileSpec : String
  mInflightFetches : List String

/-- Everything the methods touch: the singleton, the agent's region
(`gAgent.getRegion()`, absent when the pointer is null), the files on disk by
path, what an output stream does on this disk, the requests handed to
`LLHTTPClient::get` so far (URL and the responder's `mFileSpec`), the
responders that have not been called back yet, and the firings of
`mSyntaxIDChangedSignal`, each recorded with the value of `mKeywordsXml` the
subscribers find when they are called.

`writeOutcome path text` is what opening an `llofstream` on `path` for output
and writing `text` to it leaves: nothing when the stream does not open (the
file, if any, stays as it is), otherwise the new content of the file, which is
`text` when the whole write goes through. -/
structure World (D : Type) where
  inst : LLSyntaxIdLSL D
  region : Option (LLViewerRegion D)
  files : String → Option String
  writeOutcome : String → String → Option String
  httpGets : List (String × String)
  responders : List String
  signals : List D

/-! ## `LLSyntaxIdLSL` -/

/-- Method `LLSyntaxIdLSL::buildFullFileSpec`. -/
def LLSyntaxIdLSL.buildFullFileSpec {D : Type} (H : Host D) (w : World D) : World D :=
  let path := if w.inst.mSyntaxId.isNull then ELLPath.LL_PATH_APP_SETTINGS else ELLPath.LL_PATH_CACHE
  let filename :=
    if w.inst.mSyntaxId.isNull then FILENAME_DEFAULT
    else "keywords_lsl_" ++ H.uuidAsString w.inst.mSyntaxId ++ ".llsd.xml"
  { w with inst := { w.inst with mFullFileSpec := H.getExpandedFilename path filename } }

/-- Method `LLSyntaxIdLSL::syntaxIdChanged`: the returned flag and the state it
leaves. -/
def LLSyntaxIdLSL.syntaxIdChanged {D : Type} (H : Host D) (w : World D) : Bool × World D :=
  match w.region with
  | some region =>
    if region.capabilitiesReceived then
      let sim_features := region.simulatorFeatures
      if H.has sim_features SYNTAX_ID_SIMULATOR_FEATURE then
        let new_syntax_id := H.asUUID (H.get sim_features SYNTAX_ID_SIMULATOR_FEATURE)
        let w1 : World D :=
          { w with inst := { w.inst with
              mCapabilityURL := region.getCapability SYNTAX_ID_CAPABILITY_NAME } }
        if new_syntax_id ≠ w1.inst.mSyntaxId then
          (true, { w1 with inst := { w1.inst with mSyntaxId := new_syntax_id } })
        else
          (false, w1)
      else
        (false, w)
    else
      (false, { w with region := some { region with
                  capsReceivedCallbacks := region.capsReceivedCallbacks + 1 } })
  | none => (false, w)

/-- Method `LLSyntaxIdLSL::fetchKeywordsFile`: the file spec joins the in-flight
list and a GET with a new responder for that file spec goes to the HTTP
client. -/
def LLSyntaxIdLSL.fetchKeywordsFile {D : Type} (filespec : String) (w : World D) : World D :=
  { w with
    inst := { w.inst with mInflightFetches := w.inst.mInflightFetches ++ [filespec] }
    httpGets := w.httpGets ++ [(w.inst.mCapabilityURL, filespec)]
    responders := w.responders ++ [filespec] }

/-- Method `LLSyntaxIdLSL::isSupportedVersion`.  The comparison is between the
`S32` that `asInteger` returns and the `U32` constant, so the left side is first
converted to unsigned, that is reduced modulo `2^32`. -/
def LLSyntaxIdLSL.isSupportedVersion {D : Type} (H : Host D) (content : D) : Bool :=
  if H.has content LLSD_SYNTAX_LSL_VERSION_KEY then
    if H.asInteger (H.get content LLSD_SYNTAX_LSL_VERSION_KEY) % 4294967296
        = (LLSD_SYNTAX_LSL_VERSION_EXPECTED : Int) then
      true
    else
      false
  else
    false

/-- Method `LLSyntaxIdLSL::loadKeywordsIntoLLSD`: `content` starts undefined, is
filled by the parser when the file opens, is assigned to `mKeywordsXml`
whatever the parser and the version check said, and then the signal fires. -/
def LLSyntaxIdLSL.loadKeywordsIntoLLSD {D : Type} (H : Host D) (w : World D) : World D :=
  let content : D :=
    match w.files w.inst.mFullFileSpec with
    | some text =>
      let parsed := H.fromXML text
      if parsed.2 ≠ PARSE_FAILURE then
        if LLSyntaxIdLSL.isSupportedVersion H parsed.1 then
          parsed.1 -- debug line "Deserialised"
        else
          parsed.1 -- warning "Unknown or unsupported version of syntax file."
      else
        parsed.1
    | none => H.undef -- warning "Failed to open"
  let w1 : World D := { w with inst := { w.inst with mKeywordsXml := content } }
  { w1 with signals := w1.signals ++ [w1.inst.mKeywordsXml] }

/-- Method `LLSyntaxIdLSL::loadDefaultKeywordsIntoLLSD`. -/
def LLSyntaxIdLSL.loadDefaultKeywordsIntoLLSD {D : Type} (H : Host D) (w : World D) : World D :=
  let w1 : World D := { w with inst := { w.inst with mSyntaxId := LLUUID.null } }
  LLSyntaxIdLSL.loadKeywordsIntoLLSD H (LLSyntaxIdLSL.buildFullFileSpec H w1)

/-- Method `LLSyntaxIdLSL::initialize`; `gDirUtilp->fileExists` is whether the
disk has a file at the path. -/
def LLSyntaxIdLSL.initialize {D : Type} (H : Host D) (w : World D) : World D :=
  if w.inst.mSyntaxId.isNull then
    LLSyntaxIdLSL.loadDefaultKeywordsIntoLLSD H w
  else if w.inst.mCapabilityURL ≠ "" then
    let w1 := LLSyntaxIdLSL.buildFullFileSpec H w
    if w1.inst.mSyntaxId.notNull then
      if (w1.files w1.inst.mFullFileSpec).isNone then
        LLSyntaxIdLSL.fetchKeywordsFile w1.inst.mFullFileSpec w1
      else
        LLSyntaxIdLSL.loadKeywordsIntoLLSD H w1
    else
      LLSyntaxIdLSL.loadDefaultKeywordsIntoLLSD H w1
  else
    LLSyntaxIdLSL.loadDefaultKeywordsIntoLLSD H w

/-- Method `LLSyntaxIdLSL::keywordFetchInProgress`. -/
def LLSyntaxIdLSL.keywordFetchInProgress {D : Type} (w : World D) : Bool :=
  !w.inst.mInflightFetches.isEmpty

/-- Method `LLSyntaxIdLSL::handleRegionChanged`. -/
def LLSyntaxIdLSL.handleRegionChanged {D : Type} (H : Host D) (w : World D) : World D :=
  let r := LLSyntaxIdLSL.syntaxIdChanged H w
  if r.1 then
    let w1 := LLSyntaxIdLSL.buildFullFileSpec H r.2
    LLSyntaxIdLSL.fetchKeywordsFile w1.inst.mFullFileSpec w1
  else
    r.2

/-- Method `LLSyntaxIdLSL::handleCapsReceived`.  The region pointer is
dereferenced without a check, so there is no result when the id is not null and
the agent has no region. -/
def LLSyntaxIdLSL.handleCapsReceived {D : Type} (H : Host D) (region_uuid : LLUUID)
    (w : World D) : Option (World D) :=
  if region_uuid.notNull then
    match w.region with
    | none => none
    | some current_region =>
      if current_region.regionID = region_uuid then
        some (LLSyntaxIdLSL.syntaxIdChanged H w).2
      else
        some w
  else
    some w

/-- Method `LLSyntaxIdLSL::handleFileFetched`; `std::list::remove` erases every
element equal to its argument. -/
def LLSyntaxIdLSL.handleFileFetched {D : Type} (H : Host D) (filepath : String)
    (w : World D) : World D :=
  LLSyntaxIdLSL.loadKeywordsIntoLLSD H
    { w with inst := { w.inst with
        mInflightFetches := w.inst.mInflightFetches.filter (fun f => f ≠ filepath) } }

/-- Modelled from the spec: the inline setter `LLSyntaxIdLSL::setKeywordsXml` of
llsyntaxid.h (not among the sources), an assignment to `mKeywordsXml`. -/
def LLSyntaxIdLSL.setKeywordsXml {D : Type} (content : D) (w : World D) : World D :=
  { w with inst := { w.inst with mKeywordsXml := content } }

/-- The constructor `LLSyntaxIdLSL::LLSyntaxIdLSL`, run with the agent in a given
region and a given disk (its files and what its output streams do): the
members start empty, the default keywords are loaded and the first region
check runs. -/
def LLSyntaxIdLSL.construct {D : Type} (H : Host D) (region : Option (LLViewerRegion D))
    (files : String → Option String) (writeOutcome : String → String → Option String) :
    World D :=
  let w0 : World D :=
    { inst := { mKeywordsXml := H.undef, mCapabilityURL := "", mSyntaxId := LLUUID.null,
                mFullFileSpec := "", mInflightFetches := [] }
      region := region, files := files, writeOutcome := writeOutcome, httpGets := [],
      responders := [], signals := [] }
  LLSyntaxIdLSL.handleRegionChanged H (LLSyntaxIdLSL.loadDefaultKeywordsIntoLLSD H w0)

/-! ## `fetchKeywordsFileResponder` -/

/-- Method `fetchKeywordsFileResponder::cacheFile`: an output stream is opened on
the responder's `mFileSpec` and the XML text of the document is written to it.
The code never looks at the state of the stream: when it did not open, `write`
and `close` do nothing and the disk is as before; when it opened, the file
holds what the write left. -/
def fetchKeywordsFileResponder.cacheFile {D : Type} (H : Host D) (mFileSpec : String)
    (content_ref : D) (w : World D) : World D :=
  let xml := H.toXML content_ref
  match w.writeOutcome mFileSpec xml with
  | none => w
  | some written =>
    { w with files := fun p => if p = mFileSpec then some written else w.files p }

/-- Method `fetchKeywordsFileResponder::result`. -/
def fetchKeywordsFileResponder.result {D : Type} (H : Host D) (mFileSpec : String)
    (content_ref : D) (w : World D) : World D :=
  if H.isMap content_ref then
    if LLSyntaxIdLSL.isSupportedVersion H content_ref then
      let w1 := LLSyntaxIdLSL.setKeywordsXml content_ref w
      let w2 := fetchKeywordsFileResponder.cacheFile H mFileSpec content_ref w1
      LLSyntaxIdLSL.handleFileFetched H mFileSpec w2
    else
      w
  else
    w

/-- Method `fetchKeywordsFileResponder::errorWithContent`: it writes a warning
to the log and nothing else. -/
def fetchKeywordsFileResponder.errorWithContent {D : Type} (_mFileSpec : String)
    (_status : Nat) (_reason : String) (_content : D) (w : World D) : World D :=
  w

/-- Modelled from the spec: how `LLHTTPClient` (llhttpclient.h is not among the
sources) completes a request with a document: the responder at position `i`
of those outstanding gets its `result` call and is released. -/
def LLHTTPClient.completeWithResult {D : Type} (H : Host D) (i : Nat) (content : D)
    (w : World D) : Option (World D) :=
  match w.responders.get? i with
  | none => none
  | some f =>
    some (fetchKeywordsFileResponder.result H f content
      { w with responders := w.responders.eraseIdx i })

/-- Modelled from the spec: how `LLHTTPClient` (llhttpclient.h is not among the
sources) completes a request that failed: the responder at position `i` of
those outstanding gets its `errorWithContent` call and is released. -/
def LLHTTPClient.completeWithError {D : Type} (i : Nat) (status : Nat) (reason : String)
    (content : D) (w : World D) : Option (World D) :=
  match w.responders.get? i with
  | none => none
  | some f =>
    some (fetchKeywordsFileResponder.errorWithContent f status reason content
      { w with responders := w.responders.eraseIdx i })

/-! ## The two file specs -/

/-- The cache path of the keywords file of an id: "keywords_lsl_<id>.llsd.xml"
in the cache directory. -/
def cacheFileSpec {D : Type} (H : Host D) (id : LLUUID) : String :=
  H.getExpandedFilename ELLPath.LL_PATH_CACHE ("keywords_lsl_" ++ H.uuidAsString id ++ ".llsd.xml")

/-- The path of the bundled default file: "keywords_lsl_default.xml" in the
application-settings directory. -/
def defaultFileSpec {D : Type} (H : Host D) : String :=
  H.getExpandedFilename ELLPath.LL_PATH_APP_SETTINGS "keywords_lsl_default.xml"

/-! ## A concrete host for worked examples -/

/-- A scalar of the example documents. -/
inductive Scalar where
  | integer (i : Int)
  | uuid (u : LLUUID)
deriving DecidableEq, Repr

/-- The example documents: undefined, a scalar, or a map from keys to scalars
(first entry of a key counts). -/
inductive Doc where
  | undef
  | scalar (s : Scalar)
  | map (entries : List (String × Scalar))
deriving DecidableEq, Repr

/-- XML text of a scalar of the example documents. -/
def Scalar.render : Scalar → String
  | .integer i => "<integer>" ++ toString i ++ "</integer>"
  | .uuid u => "<uuid>" ++ toString u.bits ++ "</uuid>"

/-- XML text of an example document. -/
def Doc.render : Doc → String
  | .undef => "<llsd><undef /></llsd>"
  | .scalar s => "<llsd>" ++ s.render ++ "</llsd>"
  | .map entries =>
    "<llsd><map>"
      ++ String.join (entries.map fun e => "<key>" ++ e.1 ++ "</key>" ++ e.2.render)
      ++ "</map></llsd>"

/-- A keywords document of the supported version. -/
def kwSupported : Doc := .map [(LLSD_SYNTAX_LSL_VERSION_KEY, .integer 2)]

/-- A second keywords document of the supported version. -/
def kwSupportedB : Doc := .map [(LLSD_SYNTAX_LSL_VERSION_KEY, .integer 2), ("jump", .integer 1)]

/-- A keywords document of another version. -/
def kwOldVersion : Doc := .map [(LLSD_SYNTAX_LSL_VERSION_KEY, .integer 1)]

/-- The documents the example parser recognises. -/
def knownDocs : List Doc := [kwSupported, kwSupportedB, kwOldVersion, .undef]

/-- The example host: documents are `Doc`, the parser reads back the text of the
documents of `knownDocs` and fails on any other text, ids print as decimal
numbers, and the two directories are `app_settings/` and `cache/`. -/
def exampleHost : Host Doc where
  undef := .undef
  isMap := fun d => match d with
    | .map _ => true
    | _ => false
  has := fun d k => match d with
    | .map entries => (entries.lookup k).isSome
    | _ => false
  get := fun d k => match d with
    | .map entries =>
      match entries.lookup k with
      | some s => .scalar s
      | none => .undef
    | _ => .undef
  asInteger := fun d => match d with
    | .scalar (.integer i) => i
    | _ => 0
  asUUID := fun d => match d with
    | .scalar (.uuid u) => u
    | _ => LLUUID.null
  toXML := Doc.render
  fromXML := fun text => match knownDocs.find? (fun d => d.render = text) with
    | some d => (d, 1)
    | none => (.undef, PARSE_FAILURE)
  uuidAsString := fun u => toString u.bits
  getExpandedFilename := fun path filename => match path with
    | .LL_PATH_APP_SETTINGS => "app_settings/" ++ filename
    | .LL_PATH_CACHE => "cache/" ++ filename

/-- The capability table of the example regions. -/
def exampleCaps : String → String :=
  fun name => if name = "LSLSyntax" then "https://sim.example/cap/LSLSyntax" else ""

/-- A region that has its capabilities and announces syntax id 7. -/
def regionSeven : LLViewerRegion Doc :=
  { regionID := ⟨100⟩, capabilitiesReceived := true,
    simulatorFeatures := .map [("LSLSyntaxId", .uuid ⟨7⟩)],
    getCapability := exampleCaps, capsReceivedCallbacks := 0 }

/-- The region of `regionSeven` before its capabilities have arrived. -/
def regionSevenPending : LLViewerRegion Doc :=
  { regionSeven with capabilitiesReceived := false }

/-- A second region, which announces syntax id 9. -/
def regionNine : LLViewerRegion Doc :=
  { regionID := ⟨101⟩, capabilitiesReceived := true,
    simulatorFeatures := .map [("LSLSyntaxId", .uuid ⟨9⟩)],
    getCapability := exampleCaps, capsReceivedCallbacks := 0 }

/-- A disk that holds only the bundled default keywords file. -/
def diskDefaultOnly : String → Option String :=
  fun p => if p = "app_settings/keywords_lsl_default.xml" then some kwSupported.render else none

/-- A disk that holds the bundled default file and a cached file for id 7. -/
def diskWithCacheSeven : String → Option String :=
  fun p =>
    if p = "cache/keywords_lsl_7.llsd.xml" then some kwSupportedB.render
    else diskDefaultOnly p

/-- Output streams of a disk on which every file can be written in full. -/
def writesSucceed : String → String → Option String :=
  fun _ text => some text

/-- Output streams of a disk on which no file can be opened for writing. -/
def writesFail : String → String → Option String :=
  fun _ _ => none

/-! ## Example states -/

/-- The viewer has started in a region whose capabilities had not arrived, and
they arrive now: the state in which the capabilities callback runs. -/
def worldCapsArrive : World Doc :=
  { LLSyntaxIdLSL.construct exampleHost (some regionSevenPending) diskDefaultOnly writesSucceed with
    region := some { regionSevenPending with
      capabilitiesReceived := true, capsReceivedCallbacks := 1 } }

/-- The viewer started without a region and with nothing cached, and the agent
now enters the region that announces id 7. -/
def worldEnterSeven : World Doc :=
  { LLSyntaxIdLSL.construct exampleHost none diskDefaultOnly writesSucceed with region := some regionSeven }

/-- The viewer started without a region, the cache holds a file for id 7, and
the agent now enters the region that announces id 7. -/
def worldEnterSevenCached : World Doc :=
  { LLSyntaxIdLSL.construct exampleHost none diskWithCacheSeven writesSucceed with region := some regionSeven }

/-- The capabilities of the region of id 7 have arrived and the callback has
stored the id and the capability URL; the disk has no cache file for id 7. -/
def worldSevenUncached : World Doc :=
  (LLSyntaxIdLSL.handleCapsReceived exampleHost ⟨100⟩ worldCapsArrive).getD worldCapsArrive

/-- The viewer started in the region of id 7 with that id's file cached, and
the script editor has called `initialize`, which loaded the cached keywords;
the fetch the constructor issued is still outstanding. -/
def worldCachedKeywordsLoaded : World Doc :=
  LLSyntaxIdLSL.initialize exampleHost
    ( LLSyntaxIdLSL.construct exampleHost (some regionSeven) diskWithCacheSeven writesSucceed)

/-- The viewer started in a region that announces id 7 and has no capability
for the syntax file, so the stored URL is empty while the stored id is 7. -/
def worldSevenNoCapability : World Doc :=
  LLSyntaxIdLSL.construct exampleHost
    (some { regionSeven with getCapability := fun _ => "" }) diskWithCacheSeven writesSucceed

/-- The viewer started in the region of id 7 with nothing cached: one fetch is
outstanding. -/
def worldOneFetch : World Doc :=
  LLSyntaxIdLSL.construct exampleHost (some regionSeven) diskDefaultOnly writesSucceed

/-- The state of `worldOneFetch` on a disk whose cache directory cannot be
written. -/
def worldOneFetchReadOnly : World Doc :=
  LLSyntaxIdLSL.construct exampleHost (some regionSeven) diskDefaultOnly writesFail

/-- From `worldOneFetch` the agent went to the region of id 9 and back to the
region of id 7 before any response arrived: three fetches are outstanding, two
of them for the file of id 7. -/
def worldThreeFetches : World Doc :=
  LLSyntaxIdLSL.handleRegionChanged exampleHost
    { LLSyntaxIdLSL.handleRegionChanged exampleHost
        { worldOneFetch with region := some regionNine } with region := some regionSeven }

/-- From `worldOneFetch` the agent went on to the region of id 9 while the
fetch for id 7 was outstanding: the current file spec is that of id 9. -/
def worldMovedOn : World Doc :=
  LLSyntaxIdLSL.handleRegionChanged exampleHost { worldOneFetch with region := some regionNine }

/-- A disk whose cache file for id 7 was written under an older schema: it
parses, and its version is 1. -/
def diskOldCacheSeven : String → Option String :=
  fun p =>
    if p = "cache/keywords_lsl_7.llsd.xml" then some kwOldVersion.render
    else diskDefaultOnly p

/-- The viewer started in the region of id 7 on `diskOldCacheSeven`. -/
def worldOldCache : World Doc :=
  LLSyntaxIdLSL.construct exampleHost (some regionSeven) diskOldCacheSeven writesSucceed

/-! ## Version check -/

/-- Claim C1: `isSupportedVersion` answers true exactly when the document has the
key "llsd-lsl-syntax-version" and the integer under that key is 2; without the
key, or with any other 32-bit integer under it, the answer is false. -/
theorem isSupportedVersion_iff_version_two {D : Type} (H : Host D) (content : D)
    (hr : inS32 (H.asInteger (H.get content "llsd-lsl-syntax-version"))) :
    LLSyntaxIdLSL.isSupportedVersion H content = true ↔
      (H.has content "llsd-lsl-syntax-version" = true ∧
        H.asInteger (H.get content "llsd-lsl-syntax-version") = 2) := by
  unfold inS32 at hr
  unfold LLSyntaxIdLSL.isSupportedVersion LLSD_SYNTAX_LSL_VERSION_KEY
    LLSD_SYNTAX_LSL_VERSION_EXPECTED
  by_cases hk : H.has content "llsd-lsl-syntax-version" = true
  · by_cases hv : H.asInteger (H.get content "llsd-lsl-syntax-version") = 2
    · simp [hk, hv]
    · have hm : ¬ H.asInteger (H.get content "llsd-lsl-syntax-version") % 4294967296 = 2 := by
        omega
      simp [hk, hv, hm]
  · simp [hk]

/-- Claim C1 at the example documents: the one with version 2 is accepted. -/
theorem isSupportedVersion_iff_version_two_witness :
    inS32 (exampleHost.asInteger (exampleHost.get kwSupported "llsd-lsl-syntax-version")) ∧
    (LLSyntaxIdLSL.isSupportedVersion exampleHost kwSupported = true ↔
      (exampleHost.has kwSupported "llsd-lsl-syntax-version" = true ∧
        exampleHost.asInteger (exampleHost.get kwSupported "llsd-lsl-syntax-version") = 2)) :=
  ⟨by decide, isSupportedVersion_iff_version_two exampleHost kwSupported (by decide)⟩

/-! ## Detecting a new syntax id -/

/-- Claim C2: `syntaxIdChanged` returns true exactly when the agent has a region
that has received its capabilities, whose simulator features hold "LSLSyntaxId"
with an id different from the stored `mSyntaxId`; on true the stored id is the
region's afterwards, on false it is unchanged; and the region is as before, so
a second call right after a true one returns false. -/
theorem syntaxIdChanged_spec {D : Type} (H : Host D) (w : World D) :
    ((LLSyntaxIdLSL.syntaxIdChanged H w).1 = true ↔
      ∃ region, w.region = some region ∧ region.capabilitiesReceived = true ∧
        H.has region.simulatorFeatures "LSLSyntaxId" = true ∧
        H.asUUID (H.get region.simulatorFeatures "LSLSyntaxId") ≠ w.inst.mSyntaxId) ∧
    ((LLSyntaxIdLSL.syntaxIdChanged H w).1 = true →
      ∃ region, w.region = some region ∧
        (LLSyntaxIdLSL.syntaxIdChanged H w).2.inst.mSyntaxId
          = H.asUUID (H.get region.simulatorFeatures "LSLSyntaxId")) ∧
    ((LLSyntaxIdLSL.syntaxIdChanged H w).1 = false →
      (LLSyntaxIdLSL.syntaxIdChanged H w).2.inst.mSyntaxId = w.inst.mSyntaxId) ∧
    ((LLSyntaxIdLSL.syntaxIdChanged H w).1 = true →
      (LLSyntaxIdLSL.syntaxIdChanged H w).2.region = w.region ∧
      (LLSyntaxIdLSL.syntaxIdChanged H (LLSyntaxIdLSL.syntaxIdChanged H w).2).1 = false) := by
  unfold LLSyntaxIdLSL.syntaxIdChanged SYNTAX_ID_SIMULATOR_FEATURE
  cases hreg : w.region with
  | none => simp
  | some region =>
    by_cases hc : region.capabilitiesReceived = true
    · by_cases hf : H.has region.simulatorFeatures "LSLSyntaxId" = true
      · by_cases hne : H.asUUID (H.get region.simulatorFeatures "LSLSyntaxId") = w.inst.mSyntaxId
        · simp [hc, hf, hne]
        · simp [hc, hf, hne]
      · simp [hc, hf]
    · simp [hc]

/-- Claim C2 at the example region: with no id stored yet the first call reports
a change and the call after it does not. -/
theorem syntaxIdChanged_spec_witness :
    worldEnterSeven.inst.mSyntaxId = LLUUID.null ∧
    (LLSyntaxIdLSL.syntaxIdChanged exampleHost worldEnterSeven).1 = true ∧
    (LLSyntaxIdLSL.syntaxIdChanged exampleHost worldEnterSeven).2.inst.mSyntaxId = ⟨7⟩ ∧
    (LLSyntaxIdLSL.syntaxIdChanged exampleHost
        (LLSyntaxIdLSL.syntaxIdChanged exampleHost worldEnterSeven).2).1 = false :=
  ⟨by decide, by decide, by decide,
   ((syntaxIdChanged_spec exampleHost worldEnterSeven).2.2.2 (by decide)).2⟩

/-! ## Fetching when the id changes -/

/-- No call of `handleCapsReceived` hands a request to the HTTP client or adds
to the in-flight list, whatever it does to the stored id. -/
theorem handleCapsReceived_never_fetches {D : Type} (H : Host D) (region_uuid : LLUUID)
    (w w2 : World D) (h : LLSyntaxIdLSL.handleCapsReceived H region_uuid w = some w2) :
    w2.httpGets = w.httpGets ∧ w2.responders = w.responders ∧
      w2.inst.mInflightFetches = w.inst.mInflightFetches := by
  unfold LLSyntaxIdLSL.handleCapsReceived at h
  split at h
  · cases hreg : w.region with
    | none => simp [hreg] at h
    | some region =>
      simp only [hreg] at h
      split at h
      · cases h
        unfold LLSyntaxIdLSL.syntaxIdChanged
        simp only [hreg]
        split
        · split
          · split <;> simp
          · simp
        · simp
      · cases h
        simp
  · cases h
    simp

/-- Claim C3, where the code departs from it: when the capabilities of the
current region arrive, `handleCapsReceived` replaces the null stored id by the
region's id 7 and issues no fetch: the in-flight list and the requests sent
stay empty. -/
theorem handleCapsReceived_changes_id_without_fetch :
    worldCapsArrive.inst.mSyntaxId = LLUUID.null ∧
    (LLSyntaxIdLSL.handleCapsReceived exampleHost ⟨100⟩ worldCapsArrive).map
        (fun w => w.inst.mSyntaxId) = some ⟨7⟩ ∧
    (LLSyntaxIdLSL.handleCapsReceived exampleHost ⟨100⟩ worldCapsArrive).map
        (fun w => w.inst.mInflightFetches) = some [] ∧
    (LLSyntaxIdLSL.handleCapsReceived exampleHost ⟨100⟩ worldCapsArrive).map
        (fun w => w.httpGets) = some [] ∧
    ((LLSyntaxIdLSL.handleCapsReceived exampleHost ⟨100⟩ worldCapsArrive).map
        (fun w => ( LLSyntaxIdLSL.handleRegionChanged exampleHost w).httpGets)) = some [] := by
  decide

/-- The handler next to it: `handleRegionChanged` issues exactly one fetch, for the
file spec of the new id, when `syntaxIdChanged` reports a change, and none
otherwise. -/
theorem handleRegionChanged_fetches_iff_changed {D : Type} (H : Host D) (w : World D) :
    ((LLSyntaxIdLSL.syntaxIdChanged H w).1 = true →
      (LLSyntaxIdLSL.handleRegionChanged H w).httpGets
        = w.httpGets ++ [((LLSyntaxIdLSL.handleRegionChanged H w).inst.mCapabilityURL,
            (LLSyntaxIdLSL.handleRegionChanged H w).inst.mFullFileSpec)] ∧
      (LLSyntaxIdLSL.handleRegionChanged H w).inst.mInflightFetches
        = w.inst.mInflightFetches ++ [(LLSyntaxIdLSL.handleRegionChanged H w).inst.mFullFileSpec]) ∧
    ((LLSyntaxIdLSL.syntaxIdChanged H w).1 = false →
      (LLSyntaxIdLSL.handleRegionChanged H w).httpGets = w.httpGets ∧
      (LLSyntaxIdLSL.handleRegionChanged H w).inst.mInflightFetches = w.inst.mInflightFetches) := by
  have hkeep : (LLSyntaxIdLSL.syntaxIdChanged H w).2.httpGets = w.httpGets ∧
      (LLSyntaxIdLSL.syntaxIdChanged H w).2.inst.mInflightFetches = w.inst.mInflightFetches := by
    unfold LLSyntaxIdLSL.syntaxIdChanged
    cases w.region with
    | none => simp
    | some region =>
      simp only
      split
      · split
        · split <;> simp
        · simp
      · simp
  constructor
  · intro h
    simp [LLSyntaxIdLSL.handleRegionChanged, h, LLSyntaxIdLSL.fetchKeywordsFile,
      LLSyntaxIdLSL.buildFullFileSpec, hkeep.1, hkeep.2]
  · intro h
    simp [LLSyntaxIdLSL.handleRegionChanged, h, hkeep.1, hkeep.2]

/-! ## Caching a fetched document -/

/-- Claim C4 fails as stated: on a disk whose cache directory cannot be written,
`result` with a map of the supported version leaves no file at the responder's
file spec, so the file there is not the XML text of the response. -/
theorem unwritable_cache_file_is_not_written :
    exampleHost.isMap kwSupportedB = true ∧
    LLSyntaxIdLSL.isSupportedVersion exampleHost kwSupportedB = true ∧
    worldOneFetchReadOnly.responders = ["cache/keywords_lsl_7.llsd.xml"] ∧
    (fetchKeywordsFileResponder.result exampleHost "cache/keywords_lsl_7.llsd.xml" kwSupportedB
        worldOneFetchReadOnly).files "cache/keywords_lsl_7.llsd.xml" = none ∧
    (fetchKeywordsFileResponder.result exampleHost "cache/keywords_lsl_7.llsd.xml" kwSupportedB
        worldOneFetchReadOnly).files "cache/keywords_lsl_7.llsd.xml"
      ≠ some (exampleHost.toXML kwSupportedB) := by
  decide

/-- Claim C4, amended by the condition on the disk: when the response is a map of
the supported version and the output stream on `f` opens and takes the whole
XML text, `result` of a responder for file spec `f` leaves at `f` exactly the
XML text of the response, whatever was there; when the response is not a map or
not of the supported version, and on `errorWithContent`, the disk (so the file
at `f`) is as before. -/
theorem cached_file_is_last_good_response {D : Type} (H : Host D) (f : String)
    (content : D) (w : World D) :
    (H.isMap content = true → LLSyntaxIdLSL.isSupportedVersion H content = true →
      w.writeOutcome f (H.toXML content) = some (H.toXML content) →
      (fetchKeywordsFileResponder.result H f content w).files f = some (H.toXML content)) ∧
    (¬ (H.isMap content = true ∧ LLSyntaxIdLSL.isSupportedVersion H content = true) →
      (fetchKeywordsFileResponder.result H f content w).files = w.files) ∧
    (∀ (status : Nat) (reason : String),
      (fetchKeywordsFileResponder.errorWithContent f status reason content w).files
        = w.files) := by
  refine ⟨?_, ?_, ?_⟩
  · intro hm hv hw
    simp [fetchKeywordsFileResponder.result, hm, hv, LLSyntaxIdLSL.handleFileFetched,
      LLSyntaxIdLSL.loadKeywordsIntoLLSD, fetchKeywordsFileResponder.cacheFile,
      LLSyntaxIdLSL.setKeywordsXml, hw]
  · intro hno
    unfold fetchKeywordsFileResponder.result
    by_cases hm : H.isMap content = true
    · have hv : LLSyntaxIdLSL.isSupportedVersion H content = false := by
        cases hs : LLSyntaxIdLSL.isSupportedVersion H content with
        | false => rfl
        | true => exact absurd ⟨hm, hs⟩ hno
      simp [hm, hv]
    · simp [hm]
  · intro status reason
    rfl

/-- Claim C4 as amended, on the example disk that can be written: a supported
response for id 7 lands in the cache file of id 7, which did not exist, and an
old-version response writes nothing. -/
theorem cached_file_is_last_good_response_witness :
    worldOneFetch.files "cache/keywords_lsl_7.llsd.xml" = none ∧
    (fetchKeywordsFileResponder.result exampleHost "cache/keywords_lsl_7.llsd.xml" kwSupportedB
        worldOneFetch).files "cache/keywords_lsl_7.llsd.xml"
      = some (exampleHost.toXML kwSupportedB) ∧
    (fetchKeywordsFileResponder.result exampleHost "cache/keywords_lsl_7.llsd.xml" kwOldVersion
        worldOneFetch).files = worldOneFetch.files :=
  ⟨by decide,
   (cached_file_is_last_good_response exampleHost "cache/keywords_lsl_7.llsd.xml" kwSupportedB
      worldOneFetch).1 (by decide) (by decide) (by decide),
   (cached_file_is_last_good_response exampleHost "cache/keywords_lsl_7.llsd.xml" kwOldVersion
      worldOneFetch).2.1 (by decide)⟩

/-! ## Fetch if missing -/

/-- What `buildFullFileSpec` computes: the cache path of the stored id when it
is not null, the path of the bundled default file when it is. -/
theorem buildFullFileSpec_spec {D : Type} (H : Host D) (w : World D) :
    (LLSyntaxIdLSL.buildFullFileSpec H w).inst.mFullFileSpec
      = if w.inst.mSyntaxId.isNull then defaultFileSpec H
        else cacheFileSpec H w.inst.mSyntaxId := by
  unfold LLSyntaxIdLSL.buildFullFileSpec defaultFileSpec cacheFileSpec FILENAME_DEFAULT
  by_cases h : w.inst.mSyntaxId.isNull = true <;> simp [h]

/-- Claim C5 fails as stated: the cache file of id 7 exists, and
`handleRegionChanged`, on finding the new id 7, still issues a fetch for that
very file. -/
theorem handleRegionChanged_fetches_cached_id :
    worldEnterSevenCached.files (cacheFileSpec exampleHost ⟨7⟩) = some kwSupportedB.render ∧
    (LLSyntaxIdLSL.handleRegionChanged exampleHost worldEnterSevenCached).inst.mSyntaxId = ⟨7⟩ ∧
    (LLSyntaxIdLSL.handleRegionChanged exampleHost worldEnterSevenCached).httpGets
      = [("https://sim.example/cap/LSLSyntax", cacheFileSpec exampleHost ⟨7⟩)] ∧
    (LLSyntaxIdLSL.handleRegionChanged exampleHost worldEnterSevenCached).inst.mInflightFetches
      = [cacheFileSpec exampleHost ⟨7⟩] := by
  decide

/-- Claim C5, amended to the operation that looks at the cache: with a non-null
stored id and a non-empty capability URL, `initialize` issues a fetch for the
cache path of the id exactly when no file exists there; when one exists it
issues no fetch and makes the document read from that file the keywords. -/
theorem initialize_fetches_iff_cache_missing {D : Type} (H : Host D) (w : World D)
    (hid : w.inst.mSyntaxId.isNull = false) (hurl : w.inst.mCapabilityURL ≠ "") :
    (( LLSyntaxIdLSL.initialize H w).httpGets ≠ w.httpGets ↔
      w.files (cacheFileSpec H w.inst.mSyntaxId) = none) ∧
    (w.files (cacheFileSpec H w.inst.mSyntaxId) = none →
      ( LLSyntaxIdLSL.initialize H w).httpGets
        = w.httpGets ++ [(w.inst.mCapabilityURL, cacheFileSpec H w.inst.mSyntaxId)] ∧
      ( LLSyntaxIdLSL.initialize H w).inst.mInflightFetches
        = w.inst.mInflightFetches ++ [cacheFileSpec H w.inst.mSyntaxId]) ∧
    (∀ text, w.files (cacheFileSpec H w.inst.mSyntaxId) = some text →
      ( LLSyntaxIdLSL.initialize H w).httpGets = w.httpGets ∧
      ( LLSyntaxIdLSL.initialize H w).inst.mInflightFetches = w.inst.mInflightFetches ∧
      ( LLSyntaxIdLSL.initialize H w).inst.mKeywordsXml = (H.fromXML text).1) := by
  have hspec := buildFullFileSpec_spec H w
  simp only [hid, Bool.false_eq_true, if_false] at hspec
  have hsame : (LLSyntaxIdLSL.buildFullFileSpec H w).files = w.files := rfl
  have hgets : (LLSyntaxIdLSL.buildFullFileSpec H w).httpGets = w.httpGets := rfl
  have hidb : (LLSyntaxIdLSL.buildFullFileSpec H w).inst.mSyntaxId = w.inst.mSyntaxId := rfl
  have hurlb : (LLSyntaxIdLSL.buildFullFileSpec H w).inst.mCapabilityURL
      = w.inst.mCapabilityURL := rfl
  have hinfb : (LLSyntaxIdLSL.buildFullFileSpec H w).inst.mInflightFetches
      = w.inst.mInflightFetches := rfl
  cases hfile : w.files (cacheFileSpec H w.inst.mSyntaxId) with
  | none =>
    have hinit : LLSyntaxIdLSL.initialize H w
        = LLSyntaxIdLSL.fetchKeywordsFile (cacheFileSpec H w.inst.mSyntaxId)
            (LLSyntaxIdLSL.buildFullFileSpec H w) := by
      simp [ LLSyntaxIdLSL.initialize, hid, hurl, hidb, LLUUID.notNull, hspec, hsame, hfile]
    rw [hinit]
    simp [LLSyntaxIdLSL.fetchKeywordsFile, hgets, hurlb, hinfb]
  | some text =>
    have hinit : LLSyntaxIdLSL.initialize H w
        = LLSyntaxIdLSL.loadKeywordsIntoLLSD H (LLSyntaxIdLSL.buildFullFileSpec H w) := by
      simp [ LLSyntaxIdLSL.initialize, hid, hurl, hidb, LLUUID.notNull, hspec, hsame, hfile]
    rw [hinit]
    simp [LLSyntaxIdLSL.loadKeywordsIntoLLSD, hgets, hinfb, hspec, hsame, hfile]

/-- Claim C5 as amended, on the example disks: without a cache file for id 7
`initialize` fetches it. -/
theorem initialize_fetches_iff_cache_missing_witness :
    worldSevenUncached.files (cacheFileSpec exampleHost ⟨7⟩) = none ∧
    ( LLSyntaxIdLSL.initialize exampleHost worldSevenUncached).httpGets
      = [("https://sim.example/cap/LSLSyntax", "cache/keywords_lsl_7.llsd.xml")] ∧
    ( LLSyntaxIdLSL.initialize exampleHost worldSevenUncached).inst.mInflightFetches
      = ["cache/keywords_lsl_7.llsd.xml"] :=
  ⟨by decide,
   ((initialize_fetches_iff_cache_missing exampleHost worldSevenUncached
      (by decide) (by decide)).2.1 (by decide))⟩

/-! ## Falling back to the bundled default file -/

/-- What `loadDefaultKeywordsIntoLLSD` leaves: a null id, the default file spec,
the document read from that file (undefined when it does not open), and no
request. -/
theorem loadDefaultKeywordsIntoLLSD_spec {D : Type} (H : Host D) (w : World D) :
    (LLSyntaxIdLSL.loadDefaultKeywordsIntoLLSD H w).httpGets = w.httpGets ∧
    (LLSyntaxIdLSL.loadDefaultKeywordsIntoLLSD H w).inst.mInflightFetches
      = w.inst.mInflightFetches ∧
    (LLSyntaxIdLSL.loadDefaultKeywordsIntoLLSD H w).inst.mSyntaxId = LLUUID.null ∧
    (LLSyntaxIdLSL.loadDefaultKeywordsIntoLLSD H w).inst.mFullFileSpec = defaultFileSpec H ∧
    (w.files (defaultFileSpec H) = none →
      (LLSyntaxIdLSL.loadDefaultKeywordsIntoLLSD H w).inst.mKeywordsXml = H.undef) ∧
    (∀ text, w.files (defaultFileSpec H) = some text →
      (LLSyntaxIdLSL.loadDefaultKeywordsIntoLLSD H w).inst.mKeywordsXml = (H.fromXML text).1) := by
  have hnull : LLUUID.null.isNull = true := rfl
  refine ⟨rfl, rfl, rfl, ?_, ?_, ?_⟩
  · simp [LLSyntaxIdLSL.loadDefaultKeywordsIntoLLSD, LLSyntaxIdLSL.loadKeywordsIntoLLSD,
      LLSyntaxIdLSL.buildFullFileSpec, hnull, defaultFileSpec, FILENAME_DEFAULT]
  · intro hfile
    unfold defaultFileSpec at hfile
    simp [LLSyntaxIdLSL.loadDefaultKeywordsIntoLLSD, LLSyntaxIdLSL.loadKeywordsIntoLLSD,
      LLSyntaxIdLSL.buildFullFileSpec, hnull, FILENAME_DEFAULT, hfile]
  · intro text hfile
    unfold defaultFileSpec at hfile
    simp [LLSyntaxIdLSL.loadDefaultKeywordsIntoLLSD, LLSyntaxIdLSL.loadKeywordsIntoLLSD,
      LLSyntaxIdLSL.buildFullFileSpec, hnull, FILENAME_DEFAULT, hfile]

/-- Claim C6 fails as stated: with the cached keywords of id 7 in memory, a
fetch that fails, and one that returns a document of another version, both
leave those keywords in place; they are not the keywords of the bundled
default file. -/
theorem failed_fetch_keeps_current_keywords :
    worldCachedKeywordsLoaded.responders = ["cache/keywords_lsl_7.llsd.xml"] ∧
    worldCachedKeywordsLoaded.inst.mKeywordsXml = kwSupportedB ∧
    (LLHTTPClient.completeWithError 0 499 "timed out" Doc.undef worldCachedKeywordsLoaded).map
        (fun w => w.inst.mKeywordsXml) = some kwSupportedB ∧
    (LLHTTPClient.completeWithResult exampleHost 0 kwOldVersion worldCachedKeywordsLoaded).map
        (fun w => w.inst.mKeywordsXml) = some kwSupportedB ∧
    (worldCachedKeywordsLoaded.files (defaultFileSpec exampleHost)).map
        (fun text => (exampleHost.fromXML text).1) = some kwSupported ∧
    kwSupportedB ≠ kwSupported := by
  decide

/-- Claim C6, amended in its second half: when the stored id is null or the
capability URL is empty, `initialize` issues no fetch, ends with a null id and
the default file spec, and makes the document read from the default file the
keywords (the undefined document when the file does not open); and in every
state, whatever the stored id and URL, a failed fetch and a response that is
not a map or not of the supported version leave the keywords in memory as they
were. -/
theorem initialize_falls_back_to_default {D : Type} (H : Host D) (w : World D)
    (h : w.inst.mSyntaxId.isNull = true ∨ w.inst.mCapabilityURL = "") :
    ( LLSyntaxIdLSL.initialize H w).httpGets = w.httpGets ∧
    ( LLSyntaxIdLSL.initialize H w).inst.mInflightFetches = w.inst.mInflightFetches ∧
    ( LLSyntaxIdLSL.initialize H w).inst.mSyntaxId = LLUUID.null ∧
    ( LLSyntaxIdLSL.initialize H w).inst.mFullFileSpec = defaultFileSpec H ∧
    (w.files (defaultFileSpec H) = none →
      ( LLSyntaxIdLSL.initialize H w).inst.mKeywordsXml = H.undef) ∧
    (∀ text, w.files (defaultFileSpec H) = some text →
      ( LLSyntaxIdLSL.initialize H w).inst.mKeywordsXml = (H.fromXML text).1) ∧
    (∀ (v : World D) (f : String) (status : Nat) (reason : String) (content : D),
      (fetchKeywordsFileResponder.errorWithContent f status reason content v).inst.mKeywordsXml
        = v.inst.mKeywordsXml) ∧
    (∀ (v : World D) (f : String) (content : D),
      ¬ (H.isMap content = true ∧ LLSyntaxIdLSL.isSupportedVersion H content = true) →
      (fetchKeywordsFileResponder.result H f content v).inst.mKeywordsXml
        = v.inst.mKeywordsXml) := by
  have hinit : LLSyntaxIdLSL.initialize H w = LLSyntaxIdLSL.loadDefaultKeywordsIntoLLSD H w := by
    unfold LLSyntaxIdLSL.initialize
    by_cases hid : w.inst.mSyntaxId.isNull = true
    · simp [hid]
    · have hurl : w.inst.mCapabilityURL = "" := by
        cases h with
        | inl h1 => exact absurd h1 hid
        | inr h2 => exact h2
      simp [hid, hurl]
  have hd := loadDefaultKeywordsIntoLLSD_spec H w
  rw [hinit]
  refine ⟨hd.1, hd.2.1, hd.2.2.1, hd.2.2.2.1, hd.2.2.2.2.1, hd.2.2.2.2.2, ?_, ?_⟩
  · intro v f status reason content
    rfl
  · intro v f content hno
    unfold fetchKeywordsFileResponder.result
    by_cases hm : H.isMap content = true
    · have hv : LLSyntaxIdLSL.isSupportedVersion H content = false := by
        cases hs : LLSyntaxIdLSL.isSupportedVersion H content with
        | false => rfl
        | true => exact absurd ⟨hm, hs⟩ hno
      simp [hm, hv]
    · simp [hm]

/-- Claim C6 as amended, on the example disk: with an empty capability URL
`initialize` ends with a null id and the keywords of the default file; and in
the state that holds the cached keywords of id 7, where the stored id is not
null and the URL is not empty, an error and an old-version response leave those
keywords in memory. -/
theorem initialize_falls_back_to_default_witness :
    worldSevenNoCapability.inst.mCapabilityURL = "" ∧
    worldSevenNoCapability.inst.mSyntaxId = ⟨7⟩ ∧
    ( LLSyntaxIdLSL.initialize exampleHost worldSevenNoCapability).inst.mSyntaxId = LLUUID.null ∧
    ( LLSyntaxIdLSL.initialize exampleHost worldSevenNoCapability).inst.mFullFileSpec
      = "app_settings/keywords_lsl_default.xml" ∧
    ( LLSyntaxIdLSL.initialize exampleHost worldSevenNoCapability).inst.mKeywordsXml
      = kwSupported ∧
    worldCachedKeywordsLoaded.inst.mSyntaxId = ⟨7⟩ ∧
    worldCachedKeywordsLoaded.inst.mCapabilityURL = "https://sim.example/cap/LSLSyntax" ∧
    (fetchKeywordsFileResponder.errorWithContent "cache/keywords_lsl_7.llsd.xml" 499 "timed out"
        Doc.undef worldCachedKeywordsLoaded).inst.mKeywordsXml = kwSupportedB ∧
    (fetchKeywordsFileResponder.result exampleHost "cache/keywords_lsl_7.llsd.xml" kwOldVersion
        worldCachedKeywordsLoaded).inst.mKeywordsXml = kwSupportedB :=
  ⟨by decide, by decide,
   (initialize_falls_back_to_default exampleHost worldSevenNoCapability (Or.inr (by decide))).2.2.1,
   (initialize_falls_back_to_default exampleHost worldSevenNoCapability
      (Or.inr (by decide))).2.2.2.1,
   (initialize_falls_back_to_default exampleHost worldSevenNoCapability
      (Or.inr (by decide))).2.2.2.2.2.1 kwSupported.render (by decide),
   by decide, by decide,
   (initialize_falls_back_to_default exampleHost worldSevenNoCapability
      (Or.inr (by decide))).2.2.2.2.2.2.1 worldCachedKeywordsLoaded
      "cache/keywords_lsl_7.llsd.xml" 499 "timed out" Doc.undef,
   (initialize_falls_back_to_default exampleHost worldSevenNoCapability
      (Or.inr (by decide))).2.2.2.2.2.2.2 worldCachedKeywordsLoaded
      "cache/keywords_lsl_7.llsd.xml" kwOldVersion (by decide)⟩

/-! ## Notifying the subscribers -/

/-- Claim C7: `loadKeywordsIntoLLSD` and `handleFileFetched` fire the signal
exactly once, whatever the file gave, and the subscribers find the keywords
just assigned; a response that is not a map or not of the supported version,
and an error, fire it not at all. -/
theorem signal_fires_once_after_assignment {D : Type} (H : Host D) (w : World D) :
    ((LLSyntaxIdLSL.loadKeywordsIntoLLSD H w).signals
      = w.signals ++ [(LLSyntaxIdLSL.loadKeywordsIntoLLSD H w).inst.mKeywordsXml]) ∧
    (w.files w.inst.mFullFileSpec = none →
      (LLSyntaxIdLSL.loadKeywordsIntoLLSD H w).inst.mKeywordsXml = H.undef) ∧
    (∀ text, w.files w.inst.mFullFileSpec = some text →
      (LLSyntaxIdLSL.loadKeywordsIntoLLSD H w).inst.mKeywordsXml = (H.fromXML text).1) ∧
    (∀ filepath : String,
      (LLSyntaxIdLSL.handleFileFetched H filepath w).signals
        = w.signals ++ [(LLSyntaxIdLSL.handleFileFetched H filepath w).inst.mKeywordsXml] ∧
      (LLSyntaxIdLSL.handleFileFetched H filepath w).inst.mKeywordsXml
        = (LLSyntaxIdLSL.loadKeywordsIntoLLSD H w).inst.mKeywordsXml) ∧
    (∀ (f : String) (content : D),
      ¬ (H.isMap content = true ∧ LLSyntaxIdLSL.isSupportedVersion H content = true) →
      (fetchKeywordsFileResponder.result H f content w).signals = w.signals) ∧
    (∀ (f : String) (status : Nat) (reason : String) (content : D),
      (fetchKeywordsFileResponder.errorWithContent f status reason content w).signals
        = w.signals) := by
  refine ⟨rfl, ?_, ?_, ?_, ?_, ?_⟩
  · intro hfile
    simp [LLSyntaxIdLSL.loadKeywordsIntoLLSD, hfile]
  · intro text hfile
    simp [LLSyntaxIdLSL.loadKeywordsIntoLLSD, hfile]
  · intro filepath
    exact ⟨rfl, rfl⟩
  · intro f content hno
    unfold fetchKeywordsFileResponder.result
    by_cases hm : H.isMap content = true
    · have hv : LLSyntaxIdLSL.isSupportedVersion H content = false := by
        cases hs : LLSyntaxIdLSL.isSupportedVersion H content with
        | false => rfl
        | true => exact absurd ⟨hm, hs⟩ hno
      simp [hm, hv]
    · simp [hm]
  · intro f status reason content
    rfl

/-- Claim C7 on the example: in the state with one fetch outstanding, where the
signal has fired once for the default keywords, `handleFileFetched` adds one
firing, at which the subscribers find the undefined document read from the
missing cache file. -/
theorem signal_fires_once_after_assignment_witness :
    worldOneFetch.signals = [kwSupported] ∧
    (LLSyntaxIdLSL.handleFileFetched exampleHost "cache/keywords_lsl_7.llsd.xml"
        worldOneFetch).signals = [kwSupported, Doc.undef] ∧
    (LLSyntaxIdLSL.handleFileFetched exampleHost "cache/keywords_lsl_7.llsd.xml"
        worldOneFetch).inst.mKeywordsXml = Doc.undef :=
  ⟨by decide,
   ((signal_fires_once_after_assignment exampleHost worldOneFetch).2.2.2.1
      "cache/keywords_lsl_7.llsd.xml").1,
   by decide⟩

/-! ## The in-flight list -/

/-- Every fetch puts the same file spec on the in-flight list and among the
outstanding responders. -/
theorem fetchKeywordsFile_adds_to_both {D : Type} (filespec : String) (w : World D) :
    (LLSyntaxIdLSL.fetchKeywordsFile filespec w).inst.mInflightFetches
      = w.inst.mInflightFetches ++ [filespec] ∧
    (LLSyntaxIdLSL.fetchKeywordsFile filespec w).responders = w.responders ++ [filespec] :=
  ⟨rfl, rfl⟩

/-- A request that completes with an error releases its responder and leaves
the in-flight list as it was. -/
theorem completeWithError_keeps_inflight_entry {D : Type} (i : Nat) (status : Nat)
    (reason : String) (content : D) (w w2 : World D)
    (h : LLHTTPClient.completeWithError i status reason content w = some w2) :
    w2.responders = w.responders.eraseIdx i ∧
      w2.inst.mInflightFetches = w.inst.mInflightFetches := by
  unfold LLHTTPClient.completeWithError at h
  split at h
  · cases h
  · cases h
    exact ⟨rfl, rfl⟩

/-- Claim C8, where the code departs from it: after the only outstanding fetch
has failed, and likewise after its response was rejected for its version, no
responder is left but the in-flight list still holds the file spec and
`keywordFetchInProgress` says true; and when one of two outstanding fetches
for the same file completes, both entries leave the list although one
responder for that file is still outstanding. -/
theorem inflight_list_is_not_the_outstanding_requests :
    worldOneFetch.responders = ["cache/keywords_lsl_7.llsd.xml"] ∧
    worldOneFetch.inst.mInflightFetches = ["cache/keywords_lsl_7.llsd.xml"] ∧
    (LLHTTPClient.completeWithError 0 499 "timed out" Doc.undef worldOneFetch).map
        (fun w => (w.responders, w.inst.mInflightFetches, LLSyntaxIdLSL.keywordFetchInProgress w))
      = some ([], ["cache/keywords_lsl_7.llsd.xml"], true) ∧
    (LLHTTPClient.completeWithResult exampleHost 0 kwOldVersion worldOneFetch).map
        (fun w => (w.responders, w.inst.mInflightFetches, LLSyntaxIdLSL.keywordFetchInProgress w))
      = some ([], ["cache/keywords_lsl_7.llsd.xml"], true) ∧
    worldThreeFetches.responders
      = ["cache/keywords_lsl_7.llsd.xml", "cache/keywords_lsl_9.llsd.xml",
         "cache/keywords_lsl_7.llsd.xml"] ∧
    worldThreeFetches.inst.mInflightFetches = worldThreeFetches.responders ∧
    (LLHTTPClient.completeWithResult exampleHost 0 kwSupportedB worldThreeFetches).map
        (fun w => (w.responders, w.inst.mInflightFetches))
      = some (["cache/keywords_lsl_9.llsd.xml", "cache/keywords_lsl_7.llsd.xml"],
              ["cache/keywords_lsl_9.llsd.xml"]) := by
  decide

/-! ## The keywords after a successful fetch -/

/-- Claim C9 fails as stated, in two ways.  The response for id 7 is a map of
the supported version that the parser reads back from its XML text.  When it
arrives after the agent moved on to the region of id 9, the keywords in memory
end up as the undefined document, read from the missing file of id 9.  When it
arrives with the file spec still that of id 7 but the cache directory cannot
be written, the keywords also end up undefined, read from the file that was
never written. -/
theorem response_is_not_always_the_keywords :
    exampleHost.isMap kwSupportedB = true ∧
    LLSyntaxIdLSL.isSupportedVersion exampleHost kwSupportedB = true ∧
    (exampleHost.fromXML (exampleHost.toXML kwSupportedB)).1 = kwSupportedB ∧
    worldMovedOn.responders
      = ["cache/keywords_lsl_7.llsd.xml", "cache/keywords_lsl_9.llsd.xml"] ∧
    worldMovedOn.inst.mFullFileSpec = "cache/keywords_lsl_9.llsd.xml" ∧
    (fetchKeywordsFileResponder.result exampleHost "cache/keywords_lsl_7.llsd.xml" kwSupportedB
        worldMovedOn).inst.mKeywordsXml = Doc.undef ∧
    (fetchKeywordsFileResponder.result exampleHost "cache/keywords_lsl_7.llsd.xml" kwSupportedB
        worldMovedOn).inst.mKeywordsXml ≠ kwSupportedB ∧
    worldOneFetchReadOnly.responders = ["cache/keywords_lsl_7.llsd.xml"] ∧
    worldOneFetchReadOnly.inst.mFullFileSpec = "cache/keywords_lsl_7.llsd.xml" ∧
    (fetchKeywordsFileResponder.result exampleHost "cache/keywords_lsl_7.llsd.xml" kwSupportedB
        worldOneFetchReadOnly).inst.mKeywordsXml = Doc.undef ∧
    (fetchKeywordsFileResponder.result exampleHost "cache/keywords_lsl_7.llsd.xml" kwSupportedB
        worldOneFetchReadOnly).inst.mKeywordsXml ≠ kwSupportedB := by
  decide

/-- Claim C9, amended by the two conditions it needs: for a response that is a
map of the supported version and that the parser reads back from its XML text,
after `result` of a responder for file spec `f` the keywords in memory are the
response, provided the current `mFullFileSpec` is `f` and the output stream on
`f` opens and takes the whole XML text. -/
theorem result_keywords_are_response_for_current_file {D : Type} (H : Host D) (f : String)
    (content : D) (w : World D) (hm : H.isMap content = true)
    (hv : LLSyntaxIdLSL.isSupportedVersion H content = true)
    (hrt : (H.fromXML (H.toXML content)).1 = content)
    (hf : w.inst.mFullFileSpec = f)
    (hw : w.writeOutcome f (H.toXML content) = some (H.toXML content)) :
    (fetchKeywordsFileResponder.result H f content w).inst.mKeywordsXml = content := by
  simp [fetchKeywordsFileResponder.result, hm, hv, LLSyntaxIdLSL.handleFileFetched,
    LLSyntaxIdLSL.loadKeywordsIntoLLSD, fetchKeywordsFileResponder.cacheFile,
    LLSyntaxIdLSL.setKeywordsXml, hf, hrt, hw]

/-- Claim C9 as amended, on the example: the response for id 7 arrives while
the current file spec is still that of id 7 and the disk can be written, and
becomes the keywords. -/
theorem result_keywords_are_response_for_current_file_witness :
    worldOneFetch.inst.mFullFileSpec = "cache/keywords_lsl_7.llsd.xml" ∧
    worldOneFetch.inst.mKeywordsXml = kwSupported ∧
    (fetchKeywordsFileResponder.result exampleHost "cache/keywords_lsl_7.llsd.xml" kwSupportedB
        worldOneFetch).inst.mKeywordsXml = kwSupportedB :=
  ⟨by decide, by decide,
   result_keywords_are_response_for_current_file exampleHost "cache/keywords_lsl_7.llsd.xml"
      kwSupportedB worldOneFetch (by decide) (by decide) (by decide) (by decide) (by decide)⟩

/-! ## Which documents become the keywords -/

/-- Claim C10, where the code departs from it: the cached file of id 7 parses
and carries version 1; `initialize` finds the file and `loadKeywordsIntoLLSD`
stores its document as the keywords, a document that is not undefined and that
`isSupportedVersion` rejects, while `result` given the same document leaves the
keywords alone. -/
theorem unsupported_file_becomes_keywords :
    (worldOldCache.files "cache/keywords_lsl_7.llsd.xml").map exampleHost.fromXML
      = some (kwOldVersion, 1) ∧
    LLSyntaxIdLSL.isSupportedVersion exampleHost worldOldCache.inst.mKeywordsXml = true ∧
    ( LLSyntaxIdLSL.initialize exampleHost worldOldCache).inst.mKeywordsXml = kwOldVersion ∧
    LLSyntaxIdLSL.isSupportedVersion exampleHost
      ( LLSyntaxIdLSL.initialize exampleHost worldOldCache).inst.mKeywordsXml = false ∧
    ( LLSyntaxIdLSL.initialize exampleHost worldOldCache).inst.mKeywordsXml ≠ exampleHost.undef ∧
    (fetchKeywordsFileResponder.result exampleHost "cache/keywords_lsl_7.llsd.xml" kwOldVersion
        worldOldCache).inst.mKeywordsXml = worldOldCache.inst.mKeywordsXml := by
  decide
